import Mathlib

/-!
Shallow embedding of `src/specgrid/fitmultinest.py` (prior transforms,
likelihood evaluation, fit orchestration and posterior extraction), with
theorems checking the natural-language specification against it.

Conventions used throughout:
* numpy float arrays are modelled as `List ℚ`; elementwise arithmetic on
  aligned arrays is modelled pointwise (the theorems carry equal-length
  hypotheses matching numpy's shape requirements);
* Python `OrderedDict`s are modelled as association lists, whose order is
  the insertion order;
* Python code that can raise is modelled with `Option`/`Except`: `none` /
  `Except.error` means the corresponding call raises.
-/

namespace Specgrid

/-- One-dimensional spectrum: the observed data exposes `flux`,
`uncertainty` (and a wavelength grid, irrelevant to the statements here);
model spectra returned by `Model.evaluate` expose `flux`. -/
structure Spectrum where
  flux : List ℚ
  uncertainty : List ℚ

/-- The specgrid model collaborator: a declared parameter list and the
`evaluate(**param_dict)` function producing a model spectrum. -/
structure Model where
  parameters : List String
  evaluate : List (String × ℚ) → Spectrum

/-- Embeds `UniformPrior.__init__` (lines 29-31): stores the two bounds. -/
structure UniformPrior where
  lbound : ℚ
  ubound : ℚ

/-- Embeds `UniformPrior.__call__` (lines 33-34):
`cube * (self.ubound - self.lbound) + self.lbound`. -/
def UniformPrior.call (p : UniformPrior) (cube : ℚ) : ℚ :=
  cube * (p.ubound - p.lbound) + p.lbound

/-- Embeds `PoissonPrior.__init__` (lines 71-72): stores `m`. -/
structure PoissonPrior where
  m : ℚ

/-- Embeds the argument handling of `scipy.stats.poisson.ppf`: `mu` is a
required shape parameter of the frozen-free `poisson` distribution, and a
call that does not supply it raises a `TypeError` before any computation.
The numeric value computed when `mu` is supplied is irrelevant to the
source (which never supplies it) and is abstracted as `ppfValue`. -/
def poisson_ppf (ppfValue : ℚ → ℚ → ℚ → ℚ) (q : ℚ) (mu : Option ℚ) (loc : ℚ) :
    Except String ℚ :=
  match mu with
  | none => Except.error "TypeError: ppf missing required shape parameter mu"
  | some m => Except.ok (ppfValue q m loc)

/-- Embeds `PoissonPrior.__call__` (lines 74-75):
`poisson.ppf(cube, loc=self.m)` — note that no `mu` argument is passed. -/
def PoissonPrior.call (ppfValue : ℚ → ℚ → ℚ → ℚ) (p : PoissonPrior) (cube : ℚ) :
    Except String ℚ :=
  poisson_ppf ppfValue cube none p.m

/-- Pointwise combination of three aligned `List ℚ` (elementwise numpy
arithmetic over arrays of equal shape). -/
def map3 (g : ℚ → ℚ → ℚ → ℚ) : List ℚ → List ℚ → List ℚ → List ℚ
  | a :: as, b :: bs, c :: cs => g a b c :: map3 g as bs cs
  | _, _, _ => []

/-- One summand of the log-likelihood:
`-0.5 * ((data_flux - model_flux) / data_uncertainty)**2`. -/
def chiTerm (f mf u : ℚ) : ℚ := -0.5 * ((f - mf) / u) ^ 2

/-- The squared scaled residual `((f - mf) / u)**2` (used to state the
spec's formula `-0.5 * sum(((f_i - m_i)/u_i)^2)`). -/
def sqTerm (f mf u : ℚ) : ℚ := ((f - mf) / u) ^ 2

/-- Embeds `Likelihood.__init__` (lines 143-146). -/
structure Likelihood where
  model : Model
  parameter_names : List String
  data : Spectrum

/-- Embeds `Likelihood.__call__` (lines 149-157): build
`param_dict = zip(parameter_names, model_param)`, evaluate the model, and
return `(-0.5 * ((data.flux - m.flux) / data.uncertainty)**2).sum()`.
The `ndim`/`nparam` arguments of the pymultinest callback are unused by
the body, as in the source. -/
def Likelihood.call (L : Likelihood) (model_param : List ℚ) (ndim nparam : ℕ) : ℚ :=
  (map3 chiTerm L.data.flux
    (L.model.evaluate (L.parameter_names.zip model_param)).flux
    L.data.uncertainty).sum

/-- Embeds the `PriorCollections` object (lines 392-396): it stores only
the prior dictionary (an ordered association list of name/prior pairs). -/
structure PriorCollections where
  priors : List (String × (ℚ → ℚ))

/-- Embeds `PriorCollections.__init__` (lines 395-396):
`self.priors = prior_dict`; the `parameter_order` argument is not used. -/
def PriorCollections.init (prior_dict : List (String × (ℚ → ℚ)))
    (parameter_order : List String) : PriorCollections :=
  { priors := prior_dict }

/-- One iteration `cube[i] = self.priors.values()[i](cube[i])` of the
`prior_transform` loop (line 403); `none` models the `IndexError` raised
when `i` is out of range of either list. -/
def priorTransformStep (ps : List (ℚ → ℚ)) (cur : List ℚ) (i : ℕ) : Option (List ℚ) :=
  match ps[i]?, cur[i]? with
  | some p, some c => some (cur.set i (p c))
  | _, _ => none

/-- The loop `for i in xrange(nparam)` of `prior_transform` (lines
402-403), iterating the in-place update from `i = 0` upward. -/
def priorTransformLoop (ps : List (ℚ → ℚ)) (cube : List ℚ) : ℕ → Option (List ℚ)
  | 0 => some cube
  | n + 1 =>
    match priorTransformLoop ps cube n with
    | none => none
    | some cur => priorTransformStep ps cur n

/-- Embeds `PriorCollections.prior_transform` (lines 398-403):
`self.priors.values()` is the list of prior callables in insertion order;
`ndim` is unused, as in the source. -/
def PriorCollections.prior_transform (pc : PriorCollections) (cube : List ℚ)
    (ndim nparam : ℕ) : Option (List ℚ) :=
  priorTransformLoop (pc.priors.map Prod.snd) cube nparam

/-- Embeds `model_star.parameters.index(key)` (Python `list.index`): the
position of `k` in `params`, raising `ValueError` when absent. -/
def listIndex (params : List String) (k : String) : Except String ℕ :=
  match params.indexOf? k with
  | some i => Except.ok i
  | none => Except.error "ValueError: key is not in list"

/-- The key-function evaluation performed by
`sorted(priors.keys(), key=lambda key: model_star.parameters.index(key))`
(line 188): Python computes the key of every element (in list order),
raising `ValueError` at the first key absent from `params`. -/
def keyIndexList (params : List String) : List String → Except String (List (ℕ × String))
  | [] => Except.ok []
  | k :: ks =>
    match listIndex params k with
    | Except.error e => Except.error e
    | Except.ok i =>
      match keyIndexList params ks with
      | Except.error e => Except.error e
      | Except.ok rest => Except.ok ((i, k) :: rest)

/-- Embeds line 188 in full: sort the prior keys by their index in the
model's declared parameter list (Python `sorted` is a stable sort on the
precomputed keys). -/
def sortedByModelOrder (keys params : List String) : Except String (List String) :=
  match keyIndexList params keys with
  | Except.error e => Except.error e
  | Except.ok keyed =>
    Except.ok ((keyed.mergeSort (fun a b => decide (a.1 ≤ b.1))).map Prod.snd)

/-- The configuration computed by `FitMultinest.__init__` (lines 184-197):
ordered parameter names, the `PriorCollections`, `n_params`, `basename`
and the default `Likelihood`. -/
structure FitSetup where
  parameter_names : List String
  priors : PriorCollections
  n_params : ℕ
  basename : String
  likelihood : Likelihood

/-- Embeds `FitMultinest.__init__` (lines 184-197): compute the parameter
order (raising `ValueError` on a prior key absent from
`model_star.parameters`), rebuild the prior `OrderedDict` in that order,
build the `PriorCollections` and the default `Likelihood`. The
result-attribute initialisation of lines 199-205 is modelled by
`FitMN.init` below. -/
def fitMultinestInit (spectrum : Spectrum) (priors : List (String × (ℚ → ℚ)))
    (model_star : Model) (basename : String) : Except String FitSetup :=
  match sortedByModelOrder (priors.map Prod.fst) model_star.parameters with
  | Except.error e => Except.error e
  | Except.ok parameter_names =>
    let od := parameter_names.map (fun k => (k, (priors.lookup k).getD id))
    Except.ok
      { parameter_names := parameter_names
        priors := PriorCollections.init od model_star.parameters
        n_params := od.length
        basename := basename
        likelihood :=
          { model := model_star, parameter_names := parameter_names, data := spectrum } }

/-- A Python attribute slot: `absent` means the attribute does not exist
(reading it raises `AttributeError`), `pynone` means it holds `None`,
`val a` means it holds the value `a`. -/
inductive Attr (α : Type) where
  | absent : Attr α
  | pynone : Attr α
  | val : α → Attr α
  deriving DecidableEq

/-- Reading an attribute slot: raises `AttributeError` when the attribute
does not exist, otherwise returns its (possibly `None`) value. -/
def readAttr {α : Type} : Attr α → Except String (Option α)
  | Attr.absent => Except.error "AttributeError"
  | Attr.pynone => Except.ok none
  | Attr.val a => Except.ok (some a)

/-- The opaque `pymultinest.Analyzer` handle (only its identity matters to
the statements here). -/
structure Analyzer where
  handle : ℕ
  deriving DecidableEq

/-- One posterior mode as reported in `a.get_stats()['modes']`. -/
structure Mode where
  mean : List ℚ
  sigma : List ℚ

/-- One entry of `a.get_stats()['marginals']`; only the keys read by
`FitMultinest.run` are modelled (`'1sigma'` and `'3sigma'`, each a
(low, high) interval). -/
structure Marginal where
  sigma1 : ℚ × ℚ
  sigma3 : ℚ × ℚ

/-- The parsed statistics `a.get_stats()`: the mode list, the global
evidence scalar and the per-parameter marginals. -/
structure Stats where
  modes : List Mode
  global_evidence : ℚ
  marginals : List Marginal

/-- The mutable result attributes of a `FitMultinest` object. `mean` is a
separate slot from `fit_mean`: the constructor initialises `fit_mean`
while only `run`'s statistics branch assigns `mean`. -/
structure FitMN where
  n_params : ℕ
  fit_mean : Attr (List ℚ)
  mean : Attr (List ℚ)
  sigma : Attr (List ℚ)
  evidence : Attr ℚ
  sigma1 : Attr (List (ℚ × ℚ))
  sigma3 : Attr (List (ℚ × ℚ))
  analyzer : Attr Analyzer
  stats : Attr Stats

/-- Embeds the attribute initialisation of `FitMultinest.__init__` (lines
199-205): `fit_mean`, `sigma`, `evidence`, `sigma1`, `sigma3` and
`analyzer` are assigned `None`; no attribute named `mean` (and none named
`stats`) is created. -/
def FitMN.init (n : ℕ) : FitMN :=
  { n_params := n
    fit_mean := Attr.pynone
    mean := Attr.absent
    sigma := Attr.pynone
    evidence := Attr.pynone
    sigma1 := Attr.pynone
    sigma3 := Attr.pynone
    analyzer := Attr.pynone
    stats := Attr.absent }

/-- The loop of lines 236-241: `sigma1.append(marginals[i]['1sigma'])` and
`sigma3.append(marginals[i]['3sigma'])` for `i in np.arange(n_params)`;
`none` models the `IndexError` raised when `marginals` is too short. -/
def collectSigmas (marginals : List Marginal) : ℕ → Option (List (ℚ × ℚ) × List (ℚ × ℚ))
  | 0 => some ([], [])
  | n + 1 =>
    match collectSigmas marginals n, marginals[n]? with
    | some (s1, s3), some m => some (s1 ++ [m.sigma1], s3 ++ [m.sigma3])
    | _, _ => none

/-- Embeds the result-extraction part of `FitMultinest.run` (lines
208-243). The sampling call, the `params.json` dump and the plotting code
are I/O against external collaborators (out of scope per the spec) and do
not touch the result attributes; what is modelled is: assign
`self.analyzer` unconditionally, then, only if the statistics file exists
(`statsFile = some s`, with `s` the parsed `a.get_stats()`), assign
`stats`, `mean`/`sigma` from `s['modes'][0]`, `evidence`, and the
`sigma1`/`sigma3` lists. An `Except.error st` result models an uncaught
exception raised with the object left in the partially-updated state
`st`. -/
def FitMN.run (st : FitMN) (a : Analyzer) (statsFile : Option Stats) :
    Except FitMN FitMN :=
  let st1 := { st with analyzer := Attr.val a }
  match statsFile with
  | none => Except.ok st1
  | some s =>
    let st2 := { st1 with stats := Attr.val s }
    match s.modes[0]? with
    | none => Except.error st2
    | some m0 =>
      let st3 := { st2 with
        mean := Attr.val m0.mean
        sigma := Attr.val m0.sigma
        evidence := Attr.val s.global_evidence }
      match collectSigmas s.marginals st3.n_params with
      | none => Except.error st3
      | some (l1, l3) =>
        Except.ok { st3 with sigma1 := Attr.val l1, sigma3 := Attr.val l3 }

/-- Concrete likelihood input used as a witness: one parameter, observed
flux `[1, 3]` with uncertainties `[1, 2]`, model flux `[1, 2]`. -/
def cLik : Likelihood :=
  { model := { parameters := ["teff"], evaluate := fun _ => { flux := [1, 2], uncertainty := [] } }
    parameter_names := ["teff"]
    data := { flux := [1, 3], uncertainty := [1, 2] } }

/-- Concrete model used as a witness input: one declared parameter. -/
def cModel : Model :=
  { parameters := ["logg"], evaluate := fun _ => { flux := [], uncertainty := [] } }

/-- Concrete first mode used as a witness input. -/
def cMode0 : Mode := { mean := [1], sigma := [2] }

/-- Concrete parsed statistics used as a witness input. -/
def cStats : Stats :=
  { modes := [cMode0]
    global_evidence := 3
    marginals := [{ sigma1 := (0, 1), sigma3 := (-1, 2) }] }

/-! Helper lemmas. -/

theorem map3_nil_left (g : ℚ → ℚ → ℚ → ℚ) (ys zs : List ℚ) : map3 g [] ys zs = [] := by
  cases ys <;> cases zs <;> rfl

theorem map3_nil_mid (g : ℚ → ℚ → ℚ → ℚ) (xs zs : List ℚ) : map3 g xs [] zs = [] := by
  cases xs <;> cases zs <;> rfl

theorem map3_nil_right (g : ℚ → ℚ → ℚ → ℚ) (xs ys : List ℚ) : map3 g xs ys [] = [] := by
  cases xs <;> cases ys <;> rfl

theorem map3_cons (g : ℚ → ℚ → ℚ → ℚ) (a b c : ℚ) (as bs cs : List ℚ) :
    map3 g (a :: as) (b :: bs) (c :: cs) = g a b c :: map3 g as bs cs := rfl

theorem map3_chiTerm_sum (xs ys zs : List ℚ) :
    (map3 chiTerm xs ys zs).sum = -0.5 * (map3 sqTerm xs ys zs).sum := by
  induction xs generalizing ys zs with
  | nil => simp [map3_nil_left]
  | cons a as ih =>
    cases ys with
    | nil => simp [map3_nil_mid]
    | cons b bs =>
      cases zs with
      | nil => simp [map3_nil_right]
      | cons c cs =>
        simp only [map3_cons, List.sum_cons, ih]
        simp only [chiTerm, sqTerm]
        ring

theorem map3_chiTerm_self (xs zs : List ℚ) :
    (map3 chiTerm xs xs zs).sum = 0 := by
  induction xs generalizing zs with
  | nil => simp [map3_nil_left]
  | cons a as ih =>
    cases zs with
    | nil => simp [map3_nil_right]
    | cons c cs =>
      have h0 : chiTerm a a c = 0 := by simp [chiTerm]
      simp only [map3_cons, List.sum_cons, h0, ih, zero_add]

theorem map3_chiTerm_nonpos (xs ys zs : List ℚ) :
    ∀ x ∈ map3 chiTerm xs ys zs, x ≤ 0 := by
  induction xs generalizing ys zs with
  | nil => simp [map3_nil_left]
  | cons a as ih =>
    cases ys with
    | nil => simp [map3_nil_mid]
    | cons b bs =>
      cases zs with
      | nil => simp [map3_nil_right]
      | cons c cs =>
        intro x hx
        rcases List.mem_cons.mp hx with h | h
        · subst h
          have := sq_nonneg ((a - b) / c)
          simp only [chiTerm]
          nlinarith
        · exact ih bs cs x h

theorem sum_nonpos_of_forall_nonpos (l : List ℚ) (h : ∀ x ∈ l, x ≤ 0) : l.sum ≤ 0 := by
  induction l with
  | nil => simp
  | cons a t ih =>
    rw [List.sum_cons]
    have ha := h a (List.mem_cons_self a t)
    have ht := ih fun x hx => h x (List.mem_cons_of_mem a hx)
    linarith

theorem sum_neg_of_mem_neg (l : List ℚ) (h : ∀ x ∈ l, x ≤ 0) (x₀ : ℚ)
    (hm : x₀ ∈ l) (hneg : x₀ < 0) : l.sum < 0 := by
  induction l with
  | nil => cases hm
  | cons a t ih =>
    rw [List.sum_cons]
    have ht : ∀ x ∈ t, x ≤ 0 := fun x hx => h x (List.mem_cons_of_mem a hx)
    rcases List.mem_cons.mp hm with he | hmem
    · have hts := sum_nonpos_of_forall_nonpos t ht
      subst he
      linarith
    · have ha := h a (List.mem_cons_self a t)
      have := ih ht hmem
      linarith

theorem map3_getElem? (g : ℚ → ℚ → ℚ → ℚ) (xs ys zs : List ℚ) (i : ℕ) (a b c : ℚ)
    (ha : xs[i]? = some a) (hb : ys[i]? = some b) (hc : zs[i]? = some c) :
    (map3 g xs ys zs)[i]? = some (g a b c) := by
  induction xs generalizing ys zs i with
  | nil => simp at ha
  | cons x xs ih =>
    cases ys with
    | nil => simp at hb
    | cons y ys =>
      cases zs with
      | nil => simp at hc
      | cons z zs =>
        cases i with
        | zero =>
          simp only [List.getElem?_cons_zero, Option.some.injEq] at ha hb hc
          subst ha; subst hb; subst hc
          simp [map3_cons]
        | succ n =>
          simp only [List.getElem?_cons_succ] at ha hb hc
          rw [map3_cons]
          simpa using ih ys zs n ha hb hc

theorem priorTransformLoop_ok (ps : List (ℚ → ℚ)) (cube : List ℚ) (n : ℕ)
    (h1 : n ≤ ps.length) (h2 : n ≤ cube.length) :
    ∃ out, priorTransformLoop ps cube n = some out ∧ out.length = cube.length ∧
      (∀ i, i < n → out[i]? = (ps[i]?).bind (fun p => (cube[i]?).map p)) ∧
      (∀ i, n ≤ i → out[i]? = cube[i]?) := by
  induction n with
  | zero =>
    exact ⟨cube, rfl, rfl, fun i hi => absurd hi (Nat.not_lt_zero i), fun i _ => rfl⟩
  | succ n ih =>
    obtain ⟨out, hout, hlen, hin, hrest⟩ :=
      ih (Nat.le_of_succ_le h1) (Nat.le_of_succ_le h2)
    have hn_ps : n < ps.length := Nat.lt_of_succ_le h1
    have hn_cube : n < cube.length := Nat.lt_of_succ_le h2
    obtain ⟨p, hp⟩ : ∃ p, ps[n]? = some p := ⟨_, List.getElem?_eq_getElem hn_ps⟩
    obtain ⟨c, hc⟩ : ∃ c, cube[n]? = some c := ⟨_, List.getElem?_eq_getElem hn_cube⟩
    have houtn : out[n]? = some c := (hrest n le_rfl).trans hc
    have hloop : priorTransformLoop ps cube (n + 1) = some (out.set n (p c)) := by
      simp only [priorTransformLoop, hout, priorTransformStep, hp, houtn]
    refine ⟨out.set n (p c), hloop, by simp [hlen], ?_, ?_⟩
    · intro i hi
      rcases Nat.lt_succ_iff_lt_or_eq.mp hi with hlt | he
      · rw [List.getElem?_set_ne (Nat.ne_of_lt hlt).symm]
        exact hin i hlt
      · subst he
        rw [List.getElem?_set_self (by rw [hlen]; exact hn_cube)]
        rw [hp, hc]
        rfl
    · intro i hi
      rw [List.getElem?_set_ne (Nat.ne_of_lt (Nat.lt_of_succ_le hi))]
      exact hrest i (Nat.le_of_succ_le hi)

theorem priorTransformLoop_isSome_iff (ps : List (ℚ → ℚ)) (cube : List ℚ) (n : ℕ) :
    (priorTransformLoop ps cube n).isSome = true ↔ (n ≤ ps.length ∧ n ≤ cube.length) := by
  induction n with
  | zero => simp [priorTransformLoop]
  | succ n ih =>
    constructor
    · intro h
      have hn : n ≤ ps.length ∧ n ≤ cube.length := by
        cases hl : priorTransformLoop ps cube n with
        | none => rw [priorTransformLoop, hl] at h; simp at h
        | some cur => exact ih.mp (by rw [hl]; rfl)
      obtain ⟨out, hout, hlen, _, _⟩ := priorTransformLoop_ok ps cube n hn.1 hn.2
      have hstep : (priorTransformStep ps out n).isSome = true := by
        rw [priorTransformLoop, hout] at h
        exact h
      constructor
      · by_contra hlt
        have hnone : ps[n]? = none := List.getElem?_eq_none (by omega)
        unfold priorTransformStep at hstep
        rw [hnone] at hstep
        simp at hstep
      · by_contra hlt
        have hnone : out[n]? = none := List.getElem?_eq_none (by rw [hlen]; omega)
        unfold priorTransformStep at hstep
        rw [hnone] at hstep
        rcases hps : ps[n]? with _ | p <;> rw [hps] at hstep <;> simp at hstep
    · intro ⟨hp, hc⟩
      obtain ⟨out, hout, _, _, _⟩ := priorTransformLoop_ok ps cube (n + 1) hp hc
      rw [hout]
      rfl

theorem collectSigmas_eq (marginals : List Marginal) (n : ℕ) (h : n ≤ marginals.length) :
    collectSigmas marginals n =
      some ((marginals.take n).map Marginal.sigma1, (marginals.take n).map Marginal.sigma3) := by
  induction n with
  | zero => simp [collectSigmas]
  | succ n ih =>
    have hn : n < marginals.length := Nat.lt_of_succ_le h
    have htake : marginals.take (n + 1) = marginals.take n ++ [marginals[n]] := by
      rw [List.take_succ, List.getElem?_eq_getElem hn]
      rfl
    rw [collectSigmas, ih (Nat.le_of_lt hn), List.getElem?_eq_getElem hn, htake]
    simp only [List.map_append, List.map_cons, List.map_nil]

theorem keyIndexList_error (params keys : List String) (k : String)
    (hk : k ∈ keys) (hnk : k ∉ params) : ∃ e, keyIndexList params keys = Except.error e := by
  have hind : params.indexOf? k = none := by
    rw [List.indexOf?_eq_none_iff]
    intro x hx hbeq
    exact hnk ((eq_of_beq hbeq) ▸ hx)
  induction keys with
  | nil => cases hk
  | cons h t ih =>
    rcases List.mem_cons.mp hk with he | hmem
    · subst he
      exact ⟨"ValueError: key is not in list", by simp [keyIndexList, listIndex, hind]⟩
    · cases hh : params.indexOf? h with
      | none =>
        exact ⟨"ValueError: key is not in list", by simp [keyIndexList, listIndex, hh]⟩
      | some i =>
        obtain ⟨e, he⟩ := ih hmem
        exact ⟨e, by simp [keyIndexList, listIndex, hh, he]⟩

/-! Claim theorems. -/

/-- C2: for every lbound, ubound and cube, `UniformPrior(lbound, ubound)(cube)`
equals `cube*(ubound-lbound) + lbound` (also when `ubound ≤ lbound`, with no
rejection of the inputs); when `lbound < ubound` it is monotonically
non-decreasing in cube on `[0,1]` and lies in `[lbound, ubound]`; and
`UniformPrior(0,10)` maps `0, 0.5, 1` to `0, 5, 10`. -/
theorem c2_uniform_prior (lb ub cube : ℚ) :
    UniformPrior.call ⟨lb, ub⟩ cube = cube * (ub - lb) + lb ∧
    (lb < ub → ∀ c1 c2 : ℚ, 0 ≤ c1 → c1 ≤ c2 → c2 ≤ 1 →
      UniformPrior.call ⟨lb, ub⟩ c1 ≤ UniformPrior.call ⟨lb, ub⟩ c2) ∧
    (lb < ub → 0 ≤ cube → cube ≤ 1 →
      lb ≤ UniformPrior.call ⟨lb, ub⟩ cube ∧ UniformPrior.call ⟨lb, ub⟩ cube ≤ ub) ∧
    UniformPrior.call ⟨0, 10⟩ 0 = 0 ∧
    UniformPrior.call ⟨0, 10⟩ 0.5 = 5 ∧
    UniformPrior.call ⟨0, 10⟩ 1 = 10 := by
  refine ⟨rfl, ?_, ?_, by norm_num [UniformPrior.call], by norm_num [UniformPrior.call],
    by norm_num [UniformPrior.call]⟩
  · intro hlt c1 c2 _ h12 _
    unfold UniformPrior.call
    nlinarith
  · intro hlt h0 h1
    unfold UniformPrior.call
    constructor <;> nlinarith

/-- C2 witness: the monotonicity and range conclusions of `c2_uniform_prior`
instantiated at `UniformPrior(0, 10)` with cube values `0.25 ≤ 0.75`. -/
theorem c2_uniform_prior_witness :
    UniformPrior.call ⟨0, 10⟩ 0.25 = 0.25 * ((10 : ℚ) - 0) + 0 ∧
    UniformPrior.call ⟨0, 10⟩ 0.25 ≤ UniformPrior.call ⟨0, 10⟩ 0.75 ∧
    (0 ≤ UniformPrior.call ⟨0, 10⟩ 0.25 ∧ UniformPrior.call ⟨0, 10⟩ 0.25 ≤ 10) :=
  have h := c2_uniform_prior 0 10 0.25
  ⟨h.1,
   h.2.1 (by norm_num) 0.25 0.75 (by norm_num) (by norm_num) (by norm_num),
   h.2.2.1 (by norm_num) (by norm_num) (by norm_num)⟩

/-- C5: the source calls `poisson.ppf(cube, loc=self.m)` without the required
Poisson shape parameter `mu`, so `PoissonPrior.__call__` raises `TypeError`
on every input instead of computing the inverse Poisson CDF (whatever value
`ppfValue` the inverse CDF would compute is never reached). -/
theorem c5_poisson_prior_always_raises (ppfValue : ℚ → ℚ → ℚ → ℚ) (m cube : ℚ) :
    PoissonPrior.call ppfValue ⟨m⟩ cube =
      Except.error "TypeError: ppf missing required shape parameter mu" := rfl

/-- C10: the `parameter_order` argument of `PriorCollections.__init__` has no
effect: for any prior dictionary and any two values of `parameter_order`, the
resulting `prior_transform` computations agree on every input. -/
theorem c10_parameter_order_has_no_effect (prior_dict : List (String × (ℚ → ℚ)))
    (po1 po2 : List String) (cube : List ℚ) (ndim nparam : ℕ) :
    (PriorCollections.init prior_dict po1).prior_transform cube ndim nparam =
    (PriorCollections.init prior_dict po2).prior_transform cube ndim nparam := rfl

/-- C4: after a run in which the statistics file is absent, `run` returns
normally and the result fields `mean`, `sigma`, `evidence`, `sigma1`,
`sigma3` are all left unset (`mean` was never created, the others keep the
`None` the constructor gave them). -/
theorem c4_missing_stats_leaves_results_unset (n : ℕ) (a : Analyzer) :
    ∃ st, FitMN.run (FitMN.init n) a none = Except.ok st ∧
      st.mean = Attr.absent ∧ st.sigma = Attr.pynone ∧ st.evidence = Attr.pynone ∧
      st.sigma1 = Attr.pynone ∧ st.sigma3 = Attr.pynone :=
  ⟨_, rfl, rfl, rfl, rfl, rfl, rfl⟩

/-- C9 counterexample: after `run` with the statistics file absent, the
`analyzer` attribute holds the `pymultinest.Analyzer` handle (assigned
unconditionally at lines 221-222, before the existence check), not `None`
as the claim states. -/
theorem c9_analyzer_not_none_after_run :
    (FitMN.run (FitMN.init 2) ⟨0⟩ none).toOption.map FitMN.analyzer =
      some (Attr.val ⟨0⟩) ∧
    Attr.val (⟨0⟩ : Analyzer) ≠ (Attr.pynone : Attr Analyzer) := by
  exact ⟨rfl, by decide⟩

/-- C9 amended: after construction, `sigma`, `evidence`, `sigma1`, `sigma3`
and `analyzer` all exist and equal `None` (and so does `fit_mean`); after a
run with the statistics file absent, `sigma`, `evidence`, `sigma1`, `sigma3`
still equal `None` while `analyzer` now holds the analyzer handle; in both
states no attribute named `mean` exists, so reading it raises
`AttributeError` rather than returning an unset/None value. -/
theorem c9_attribute_states (n : ℕ) (a : Analyzer) :
    ((FitMN.init n).fit_mean = Attr.pynone ∧
     (FitMN.init n).sigma = Attr.pynone ∧
     (FitMN.init n).evidence = Attr.pynone ∧
     (FitMN.init n).sigma1 = Attr.pynone ∧
     (FitMN.init n).sigma3 = Attr.pynone ∧
     (FitMN.init n).analyzer = Attr.pynone ∧
     (FitMN.init n).mean = Attr.absent ∧
     readAttr (FitMN.init n).mean = Except.error "AttributeError") ∧
    ∃ st, FitMN.run (FitMN.init n) a none = Except.ok st ∧
      st.sigma = Attr.pynone ∧ st.evidence = Attr.pynone ∧
      st.sigma1 = Attr.pynone ∧ st.sigma3 = Attr.pynone ∧
      st.analyzer = Attr.val a ∧ st.mean = Attr.absent ∧
      readAttr st.mean = Except.error "AttributeError" :=
  ⟨⟨rfl, rfl, rfl, rfl, rfl, rfl, rfl, rfl⟩,
   _, rfl, rfl, rfl, rfl, rfl, rfl, rfl, rfl⟩

/-- C1: for an observed spectrum with strictly positive uncertainties and a
model spectrum on the same grid, `Likelihood.__call__` returns
`-0.5 * sum(((f_i - m_i)/u_i)^2)`; it returns exactly `0` when the model
flux equals the observed flux at every point, and a strictly negative value
whenever some point differs. -/
theorem c1_likelihood_call (L : Likelihood) (p : List ℚ) (ndim nparam : ℕ)
    (hlen1 : (L.model.evaluate (L.parameter_names.zip p)).flux.length = L.data.flux.length)
    (hlen2 : L.data.uncertainty.length = L.data.flux.length)
    (hpos : ∀ u ∈ L.data.uncertainty, 0 < u) :
    L.call p ndim nparam =
      -0.5 * (map3 sqTerm L.data.flux
        (L.model.evaluate (L.parameter_names.zip p)).flux L.data.uncertainty).sum ∧
    ((L.model.evaluate (L.parameter_names.zip p)).flux = L.data.flux →
      L.call p ndim nparam = 0) ∧
    (∀ i, i < L.data.flux.length →
      (L.model.evaluate (L.parameter_names.zip p)).flux[i]? ≠ L.data.flux[i]? →
      L.call p ndim nparam < 0) := by
  refine ⟨map3_chiTerm_sum _ _ _, ?_, ?_⟩
  · intro h
    unfold Likelihood.call
    rw [h]
    exact map3_chiTerm_self _ _
  · intro i hi hne
    have hb : i < (L.model.evaluate (L.parameter_names.zip p)).flux.length := hlen1 ▸ hi
    have hc : i < L.data.uncertainty.length := hlen2 ▸ hi
    obtain ⟨a, ha⟩ : ∃ a, L.data.flux[i]? = some a := ⟨_, List.getElem?_eq_getElem hi⟩
    obtain ⟨b, hbm⟩ :
        ∃ b, (L.model.evaluate (L.parameter_names.zip p)).flux[i]? = some b :=
      ⟨_, List.getElem?_eq_getElem hb⟩
    obtain ⟨u, hu⟩ : ∃ u, L.data.uncertainty[i]? = some u :=
      ⟨_, List.getElem?_eq_getElem hc⟩
    have hab : a ≠ b := by
      intro he
      exact hne (by rw [hbm, ha, he])
    have hupos : 0 < u := hpos u (List.getElem?_mem hu)
    have hterm : chiTerm a b u < 0 := by
      have hsubne : a - b ≠ 0 := sub_ne_zero_of_ne hab
      have hdivne : (a - b) / u ≠ 0 := div_ne_zero hsubne (ne_of_gt hupos)
      have hsq : 0 < ((a - b) / u) ^ 2 :=
        lt_of_le_of_ne (sq_nonneg _) (Ne.symm (pow_ne_zero 2 hdivne))
      unfold chiTerm
      nlinarith
    have hmem : chiTerm a b u ∈ map3 chiTerm L.data.flux
        (L.model.evaluate (L.parameter_names.zip p)).flux L.data.uncertainty :=
      List.getElem?_mem (map3_getElem? chiTerm _ _ _ i a b u ha hbm hu)
    exact sum_neg_of_mem_neg _ (map3_chiTerm_nonpos _ _ _) _ hmem hterm

/-- C1 witness: `c1_likelihood_call` applied to the concrete one-parameter
likelihood `cLik`, whose model flux `[1, 2]` differs from the observed flux
`[1, 3]` at index 1, yielding a strictly negative log-likelihood. -/
theorem c1_likelihood_call_witness :
    (∀ u ∈ cLik.data.uncertainty, 0 < u) ∧ cLik.call [0.5] 1 1 < 0 := by
  have hpos : ∀ u ∈ cLik.data.uncertainty, 0 < u := by
    intro u hu
    simp only [cLik, List.mem_cons, List.not_mem_nil, or_false] at hu
    rcases hu with h | h <;> rw [h] <;> norm_num
  refine ⟨hpos, ?_⟩
  exact (c1_likelihood_call cLik [0.5] 1 1 rfl rfl hpos).2.2 1 (by norm_num [cLik])
    (by norm_num [cLik])

/-- C3: `prior_transform` applied with `nparam` equal to the number of priors,
on a cube at least that long, succeeds and sets `cube[i]` to
`priors[i](cube[i])` for each `i < n` (entries past `n` are untouched); the
output is a function of the construction-order prior list alone, so it cannot
vary between calls. -/
theorem c3_prior_transform_pointwise (priors : List (String × (ℚ → ℚ)))
    (parameter_order : List String) (cube : List ℚ) (ndim : ℕ)
    (h : priors.length ≤ cube.length) :
    ∃ out,
      (PriorCollections.init priors parameter_order).prior_transform
        cube ndim priors.length = some out ∧
      out.length = cube.length ∧
      (∀ i, (hi : i < priors.length) →
        out[i]? = some ((priors.get ⟨i, hi⟩).2
          (cube.get ⟨i, Nat.lt_of_lt_of_le hi h⟩))) ∧
      (∀ i, priors.length ≤ i → out[i]? = cube[i]?) := by
  obtain ⟨out, hout, hlen, hin, hrest⟩ :=
    priorTransformLoop_ok (priors.map Prod.snd) cube priors.length
      (by rw [List.length_map]) h
  refine ⟨out, hout, hlen, ?_, hrest⟩
  intro i hi
  have := hin i hi
  rw [List.getElem?_map, List.getElem?_eq_getElem hi,
    List.getElem?_eq_getElem (Nat.lt_of_lt_of_le hi h)] at this
  simpa using this

/-- C3 witness: `c3_prior_transform_pointwise` applied to one prior
`fun c => c + 1` and the length-2 cube `[0.25, 0.5]`. -/
theorem c3_prior_transform_witness :
    (([("a", fun c : ℚ => c + 1)] : List (String × (ℚ → ℚ))).length ≤
      ([0.25, 0.5] : List ℚ).length) ∧
    ∃ out,
      (PriorCollections.init [("a", fun c : ℚ => c + 1)] []).prior_transform
        [0.25, 0.5] 2 ([("a", fun c : ℚ => c + 1)] : List (String × (ℚ → ℚ))).length =
        some out ∧
      out.length = ([0.25, 0.5] : List ℚ).length ∧
      (∀ i, (hi : i < ([("a", fun c : ℚ => c + 1)] : List (String × (ℚ → ℚ))).length) →
        out[i]? = some ((([("a", fun c : ℚ => c + 1)] :
            List (String × (ℚ → ℚ))).get ⟨i, hi⟩).2
          (([0.25, 0.5] : List ℚ).get ⟨i, by simpa using Nat.lt_of_lt_of_le hi (by simp)⟩))) ∧
      (∀ i, ([("a", fun c : ℚ => c + 1)] : List (String × (ℚ → ℚ))).length ≤ i →
        out[i]? = ([0.25, 0.5] : List ℚ)[i]?) :=
  ⟨by simp, c3_prior_transform_pointwise [("a", fun c : ℚ => c + 1)] [] [0.25, 0.5] 2 (by simp)⟩

/-- C6 counterexample: with one prior, a cube of length 2 and `nparam = 1`,
`prior_transform` succeeds even though `len(cube) != len(priors)` — so it
does not fail with a dimension-mismatch error whenever the two lengths
differ. -/
theorem c6_no_mismatch_error_counterexample :
    ((PriorCollections.init [("a", fun c : ℚ => c)] []).prior_transform
      [0.5, 0.7] 2 1).isSome = true ∧
    ([("a", fun c : ℚ => c)] : List (String × (ℚ → ℚ))).length ≠
      ([0.5, 0.7] : List ℚ).length := by
  constructor
  · rfl
  · simp

/-- C6 amended: `prior_transform` performs no dimension-mismatch check
between the cube and the prior collection; it fails (index error) exactly
when `nparam` exceeds the number of priors or the length of the cube, and
succeeds otherwise — even when `len(cube) != len(priors)`. -/
theorem c6_failure_iff_nparam_too_large (priors : List (String × (ℚ → ℚ)))
    (parameter_order : List String) (cube : List ℚ) (ndim nparam : ℕ) :
    ((PriorCollections.init priors parameter_order).prior_transform
      cube ndim nparam).isSome = true ↔
    (nparam ≤ priors.length ∧ nparam ≤ cube.length) := by
  have := priorTransformLoop_isSome_iff (priors.map Prod.snd) cube nparam
  rw [List.length_map] at this
  exact this

/-- C7: when `run` finds and parses the statistics file, the headline `mean`
and `sigma` come from the first reported mode, `evidence` is the global
evidence scalar, and `sigma1`/`sigma3` are lists of length exactly
`n_params` whose i-th entries are the i-th parameter's 1-sigma and 3-sigma
marginal intervals, in per-parameter order; all these fields are populated
together in this branch. -/
theorem c7_stats_extraction (st : FitMN) (a : Analyzer) (s : Stats) (m0 : Mode)
    (hm : s.modes[0]? = some m0) (hlen : st.n_params ≤ s.marginals.length) :
    ∃ st2, FitMN.run st a (some s) = Except.ok st2 ∧
      st2.stats = Attr.val s ∧
      st2.mean = Attr.val m0.mean ∧
      st2.sigma = Attr.val m0.sigma ∧
      st2.evidence = Attr.val s.global_evidence ∧
      ∃ l1 l3, st2.sigma1 = Attr.val l1 ∧ st2.sigma3 = Attr.val l3 ∧
        l1.length = st.n_params ∧ l3.length = st.n_params ∧
        (∀ i, i < st.n_params →
          l1[i]? = (s.marginals[i]?).map Marginal.sigma1 ∧
          l3[i]? = (s.marginals[i]?).map Marginal.sigma3) := by
  have hcs := collectSigmas_eq s.marginals st.n_params hlen
  have hrun : FitMN.run st a (some s) = Except.ok
      { st with
        analyzer := Attr.val a
        stats := Attr.val s
        mean := Attr.val m0.mean
        sigma := Attr.val m0.sigma
        evidence := Attr.val s.global_evidence
        sigma1 := Attr.val ((s.marginals.take st.n_params).map Marginal.sigma1)
        sigma3 := Attr.val ((s.marginals.take st.n_params).map Marginal.sigma3) } := by
    simp only [FitMN.run, hm, hcs]
  refine ⟨_, hrun, rfl, rfl, rfl, rfl,
    (s.marginals.take st.n_params).map Marginal.sigma1,
    (s.marginals.take st.n_params).map Marginal.sigma3, rfl, rfl, ?_, ?_, ?_⟩
  · simp [List.length_map, List.length_take, Nat.min_eq_left hlen]
  · simp [List.length_map, List.length_take, Nat.min_eq_left hlen]
  · intro i hi
    constructor <;>
      simp [List.getElem?_map, List.getElem?_take_of_lt hi]

/-- C7 witness: `c7_stats_extraction` applied to the concrete one-parameter
statistics `cStats` with first mode `cMode0`. -/
theorem c7_stats_extraction_witness :
    cStats.modes[0]? = some cMode0 ∧
    (FitMN.init 1).n_params ≤ cStats.marginals.length ∧
    ∃ st2, FitMN.run (FitMN.init 1) ⟨0⟩ (some cStats) = Except.ok st2 ∧
      st2.stats = Attr.val cStats ∧
      st2.mean = Attr.val cMode0.mean ∧
      st2.sigma = Attr.val cMode0.sigma ∧
      st2.evidence = Attr.val cStats.global_evidence ∧
      ∃ l1 l3, st2.sigma1 = Attr.val l1 ∧ st2.sigma3 = Attr.val l3 ∧
        l1.length = (FitMN.init 1).n_params ∧ l3.length = (FitMN.init 1).n_params ∧
        (∀ i, i < (FitMN.init 1).n_params →
          l1[i]? = (cStats.marginals[i]?).map Marginal.sigma1 ∧
          l3[i]? = (cStats.marginals[i]?).map Marginal.sigma3) :=
  ⟨rfl, by simp [cStats, FitMN.init],
   c7_stats_extraction (FitMN.init 1) ⟨0⟩ cStats cMode0 rfl (by simp [cStats, FitMN.init])⟩

/-- C8: constructing a `FitMultinest` whose prior dictionary contains a
parameter name absent from the model's declared parameter list raises an
error during construction (the `ValueError` from
`model_star.parameters.index(key)` at line 188), before any sampling. -/
theorem c8_unknown_parameter_raises (spectrum : Spectrum)
    (priors : List (String × (ℚ → ℚ))) (model_star : Model) (basename : String)
    (k : String) (h1 : k ∈ priors.map Prod.fst) (h2 : k ∉ model_star.parameters) :
    ∃ e, fitMultinestInit spectrum priors model_star basename = Except.error e := by
  obtain ⟨e, he⟩ := keyIndexList_error model_star.parameters (priors.map Prod.fst) k h1 h2
  exact ⟨e, by simp [fitMultinestInit, sortedByModelOrder, he]⟩

/-- C8 witness: a prior on `"teff"` against a model declaring only `"logg"`
makes construction fail. -/
theorem c8_unknown_parameter_raises_witness :
    ("teff" ∈ ([("teff", fun c : ℚ => c)] : List (String × (ℚ → ℚ))).map Prod.fst) ∧
    ("teff" ∉ cModel.parameters) ∧
    ∃ e, fitMultinestInit ⟨[], []⟩ [("teff", fun c : ℚ => c)] cModel
      "chains/spectrumFit_" = Except.error e :=
  ⟨by simp, by simp [cModel],
   c8_unknown_parameter_raises ⟨[], []⟩ [("teff", fun c : ℚ => c)] cModel
     "chains/spectrumFit_" "teff" (by simp) (by simp [cModel])⟩

end Specgrid
